import Mathlib

/-!
Verification of the codexia conversation store and codex event hook.

The development shallowly embeds two modules:
* `ConversationStore.ts` — a persisted store holding a list of conversations,
  each a list of chat messages, together with its persistence policy
  (`partialize`, `migrate`, and the skip-identical-writes storage wrapper);
* the `useCodexEvents` hook — an event dispatcher that filters events by
  session identity, buffers streaming text deltas, and flushes them into the
  store.

Nondeterministic inputs of the code (`Date.now()`, generated random ids) are
passed as explicit parameters (`now`, `freshId`).  The hook reads the
`conversations` array captured by its closure at render time, which is not
updated by store writes made inside the same handler run; that captured list
is passed explicitly as a `conversations` parameter to the hook functions.
-/

namespace Codexia

/-- The configuration blob (`CodexConfig` of the types module, not part of
this repository's sources).  Its internal fields never influence the store
logic; it is modelled as an abstract wrapper around a number. -/
structure CodexConfig where
  blob : Nat := 0
deriving DecidableEq, Repr

/-- `DEFAULT_CONFIG` of the types module: some fixed configuration value. -/
def DEFAULT_CONFIG : CodexConfig := {}

/-- Chat modes are plain string tags (for example `"agent"`). -/
abbrev ChatMode := String

/-- A message as stored by the conversation store (`ChatMessage` of the chat
types).  JavaScript optional fields are `Option`s; `timestamp` is epoch
milliseconds. -/
structure ChatMessage where
  id : String
  role : String
  content : String
  timestamp : Nat
  isStreaming : Option Bool := none
  reasoning : Option String := none
  isReasoningStreaming : Option Bool := none
  toolOutput : Option String := none
  isToolStreaming : Option Bool := none
deriving DecidableEq, Repr

/-- A conversation document. -/
structure Conversation where
  id : String
  title : String
  messages : List ChatMessage
  mode : ChatMode
  createdAt : Nat
  updatedAt : Nat
  isFavorite : Bool
  isLoading : Option Bool := none
deriving DecidableEq, Repr

/-- The state fields of the zustand `ConversationStore`. -/
structure ConversationStore where
  config : CodexConfig := {}
  conversations : List Conversation := []
  conversationsSnapshot : Option (List Conversation) := none
  currentConversationId : Option String := none
  sessionDisconnected : Bool := false
  pendingUserInput : Option String := none
  pendingNewConversation : Bool := false
  streamingActive : Bool := false
deriving DecidableEq, Repr

/-- `generateTitle`: title from the first user message, truncated to 50
characters with an ellipsis. -/
def generateTitle (messages : List ChatMessage) : String :=
  match messages.find? (fun msg => msg.role == "user") with
  | some firstUserMessage =>
    let content := firstUserMessage.content.trim
    if content.length > 50 then content.take 50 ++ "..." else content
  | none => "New Conversation"

/-- `setConfig`. -/
def setConfig (st : ConversationStore) (config : CodexConfig) : ConversationStore :=
  { st with config := config }

/-- `createConversation`.  The source computes
`id = sessionId || generated`; the generated id is the `freshId` parameter,
and an absent (or falsy) `sessionId` is `none`.  Returns the new store and
the returned id. -/
def createConversation (st : ConversationStore) (title : Option String)
    (mode : ChatMode) (sessionId : Option String) (freshId : String) (now : Nat) :
    ConversationStore × String :=
  let id := sessionId.getD freshId
  match st.conversations.find? (fun conv => conv.id == id) with
  | some _ => ({ st with currentConversationId := some id }, id)
  | none =>
    let newConversation : Conversation :=
      { id := id, title := title.getD "New Conversation", messages := [],
        mode := mode, createdAt := now, updatedAt := now, isFavorite := false }
    ({ st with conversations := newConversation :: st.conversations,
               currentConversationId := some id,
               pendingNewConversation := true }, id)

/-- `selectHistoryConversation`. -/
def selectHistoryConversation (st : ConversationStore) (conversation : Conversation) :
    ConversationStore :=
  { st with currentConversationId := some conversation.id }

/-- `deleteConversation`. -/
def deleteConversation (st : ConversationStore) (id : String) : ConversationStore :=
  let updatedConversations := st.conversations.filter (fun conv => conv.id != id)
  let newCurrentId :=
    if st.currentConversationId == some id then
      match updatedConversations.head? with
      | some conv => some conv.id
      | none => none
    else st.currentConversationId
  { st with conversations := updatedConversations, currentConversationId := newCurrentId }

/-- `setCurrentConversation`. -/
def setCurrentConversation (st : ConversationStore) (id : String) : ConversationStore :=
  { st with currentConversationId := some id }

/-- The per-conversation update of `updateConversationTitle`. -/
def updateConversationTitleConv (id title : String) (now : Nat) (conv : Conversation) :
    Conversation :=
  if conv.id == id then { conv with title := title, updatedAt := now } else conv

/-- `updateConversationTitle`. -/
def updateConversationTitle (st : ConversationStore) (id title : String) (now : Nat) :
    ConversationStore :=
  { st with conversations := st.conversations.map (updateConversationTitleConv id title now) }

/-- The per-conversation update of `updateConversationMode`. -/
def updateConversationModeConv (id : String) (mode : ChatMode) (now : Nat)
    (conv : Conversation) : Conversation :=
  if conv.id == id then { conv with mode := mode, updatedAt := now } else conv

/-- `updateConversationMode`. -/
def updateConversationMode (st : ConversationStore) (id : String) (mode : ChatMode)
    (now : Nat) : ConversationStore :=
  { st with conversations := st.conversations.map (updateConversationModeConv id mode now) }

/-- `snapshotConversations`: store a copy of the live conversation list in
`conversationsSnapshot` (the source makes a shallow clone of each
conversation and of its message array; in a pure model the clone is the
list itself). -/
def snapshotConversations (st : ConversationStore) : ConversationStore :=
  { st with conversationsSnapshot := some st.conversations }

/-- The per-conversation update of `toggleFavorite`. -/
def toggleFavoriteConv (id : String) (now : Nat) (conv : Conversation) : Conversation :=
  if conv.id == id then { conv with isFavorite := !conv.isFavorite, updatedAt := now }
  else conv

/-- `toggleFavorite`. -/
def toggleFavorite (st : ConversationStore) (id : String) (now : Nat) : ConversationStore :=
  { st with conversations := st.conversations.map (toggleFavoriteConv id now) }

/-- `setStreamingActive`. -/
def setStreamingActive (st : ConversationStore) (active : Bool) : ConversationStore :=
  { st with streamingActive := active }

/-- `setSessionDisconnected`. -/
def setSessionDisconnected (st : ConversationStore) (disconnected : Bool) :
    ConversationStore :=
  { st with sessionDisconnected := disconnected }

/-- `setPendingUserInput`. -/
def setPendingUserInput (st : ConversationStore) (input : Option String) :
    ConversationStore :=
  { st with pendingUserInput := input }

/-- `setPendingNewConversation`. -/
def setPendingNewConversation (st : ConversationStore) (pending : Bool) :
    ConversationStore :=
  { st with pendingNewConversation := pending }

/-- The per-conversation update of `setSessionLoading`. -/
def setSessionLoadingConv (sessionId : String) (loading : Bool) (conv : Conversation) :
    Conversation :=
  if conv.id == sessionId then { conv with isLoading := some loading } else conv

/-- `setSessionLoading`. -/
def setSessionLoading (st : ConversationStore) (sessionId : String) (loading : Bool) :
    ConversationStore :=
  { st with conversations := st.conversations.map (setSessionLoadingConv sessionId loading) }

/-- The per-conversation update of `addDisconnectionWarning`. -/
def addDisconnectionWarningConv (conversationId : String) (now : Nat)
    (warningMessage : ChatMessage) (conv : Conversation) : Conversation :=
  if conv.id == conversationId then
    { conv with messages := conv.messages ++ [warningMessage], updatedAt := now }
  else conv

/-- `addDisconnectionWarning`. -/
def addDisconnectionWarning (st : ConversationStore) (conversationId : String)
    (now : Nat) : ConversationStore :=
  let warningMessage : ChatMessage :=
    { id := conversationId ++ "-disconnection-warning-" ++ toString now,
      role := "system",
      content := "⚠️ Codex session has been disconnected. Your previous conversation history cannot be resumed. Please start a new conversation to continue chatting with the AI assistant.",
      timestamp := now }
  { st with
    conversations :=
      st.conversations.map (addDisconnectionWarningConv conversationId now warningMessage) }

/-- The per-conversation update of `addMessage`. -/
def addMessageConv (conversationId : String) (message : ChatMessage) (now : Nat)
    (conv : Conversation) : Conversation :=
  if conv.id == conversationId then
    let updatedMessages := conv.messages ++ [message]
    let title :=
      if conv.title == "New Conversation" && updatedMessages.length == 1 then
        generateTitle updatedMessages
      else conv.title
    { conv with messages := updatedMessages, title := title, updatedAt := now }
  else conv

/-- `addMessage`. -/
def addMessage (st : ConversationStore) (conversationId : String) (message : ChatMessage)
    (now : Nat) : ConversationStore :=
  { st with conversations := st.conversations.map (addMessageConv conversationId message now) }

/-- The per-conversation update of `updateLastMessage`.  The flattened
`isStreamingOpt` is `some b` when the source is called with
`{ isStreaming: b }` and `none` when `opts` is absent or has no
`isStreaming` field. -/
def updateLastMessageConv (conversationId content : String) (isStreamingOpt : Option Bool)
    (now : Nat) (conv : Conversation) : Conversation :=
  if conv.id == conversationId then
    match conv.messages.getLast? with
    | none => conv
    | some lastMessage =>
      let newLast : ChatMessage :=
        { lastMessage with
          content := content,
          isStreaming :=
            match isStreamingOpt with
            | some b => some b
            | none => lastMessage.isStreaming }
      { conv with
        messages := conv.messages.dropLast ++ [newLast],
        updatedAt := if isStreamingOpt == some true then conv.updatedAt else now }
  else conv

/-- `updateLastMessage`. -/
def updateLastMessage (st : ConversationStore) (conversationId content : String)
    (isStreamingOpt : Option Bool) (now : Nat) : ConversationStore :=
  { st with
    conversations :=
      st.conversations.map (updateLastMessageConv conversationId content isStreamingOpt now) }

/-- The per-conversation update of `updateLastMessageReasoning`. -/
def updateLastMessageReasoningConv (conversationId reasoning : String)
    (isStreamingOpt : Option Bool) (now : Nat) (conv : Conversation) : Conversation :=
  if conv.id == conversationId then
    match conv.messages.getLast? with
    | none => conv
    | some lastMessage =>
      let newLast : ChatMessage :=
        { lastMessage with
          reasoning := some reasoning,
          isReasoningStreaming :=
            match isStreamingOpt with
            | some b => some b
            | none => lastMessage.isReasoningStreaming }
      { conv with
        messages := conv.messages.dropLast ++ [newLast],
        updatedAt := if isStreamingOpt == some true then conv.updatedAt else now }
  else conv

/-- `updateLastMessageReasoning`. -/
def updateLastMessageReasoning (st : ConversationStore) (conversationId reasoning : String)
    (isStreamingOpt : Option Bool) (now : Nat) : ConversationStore :=
  { st with
    conversations :=
      st.conversations.map
        (updateLastMessageReasoningConv conversationId reasoning isStreamingOpt now) }

/-- The per-conversation update of `updateLastMessageToolOutput`. -/
def updateLastMessageToolOutputConv (conversationId output : String)
    (isStreamingOpt : Option Bool) (now : Nat) (conv : Conversation) : Conversation :=
  if conv.id == conversationId then
    match conv.messages.getLast? with
    | none => conv
    | some lastMessage =>
      let newLast : ChatMessage :=
        { lastMessage with
          toolOutput := some output,
          isToolStreaming :=
            match isStreamingOpt with
            | some b => some b
            | none => lastMessage.isToolStreaming }
      { conv with
        messages := conv.messages.dropLast ++ [newLast],
        updatedAt := if isStreamingOpt == some true then conv.updatedAt else now }
  else conv

/-- `updateLastMessageToolOutput`. -/
def updateLastMessageToolOutput (st : ConversationStore) (conversationId output : String)
    (isStreamingOpt : Option Bool) (now : Nat) : ConversationStore :=
  { st with
    conversations :=
      st.conversations.map
        (updateLastMessageToolOutputConv conversationId output isStreamingOpt now) }

/-- `getCurrentConversation`. -/
def getCurrentConversation (st : ConversationStore) : Option Conversation :=
  match st.currentConversationId with
  | some id => st.conversations.find? (fun conv => conv.id == id)
  | none => none

/-- `getCurrentMessages`. -/
def getCurrentMessages (st : ConversationStore) : List ChatMessage :=
  ((getCurrentConversation st).map Conversation.messages).getD []

/-! ### Persistence layer -/

/-- The shape of the persisted blob: what `partialize` emits and what
`migrate` receives.  A field an old blob may lack, or that `partialize`
may omit, is an `Option`. -/
structure PersistedState where
  config : Option CodexConfig := none
  conversations : Option (List Conversation) := none
  currentConversationId : Option String := none
deriving DecidableEq, Repr

/-- `partialize` of the persist options: while streaming, only the config
and the current conversation id; otherwise also the conversation list,
taken from the snapshot when one exists. -/
def partialize (st : ConversationStore) : PersistedState :=
  if st.streamingActive then
    { config := some st.config,
      conversations := none,
      currentConversationId := st.currentConversationId }
  else
    { config := some st.config,
      conversations := some (st.conversationsSnapshot.getD st.conversations),
      currentConversationId := st.currentConversationId }

/-- `migrate` of the persist options: below version 4, default the config
field when it is absent (`persistedState.config || DEFAULT_CONFIG`). -/
def migrate (persistedState : PersistedState) (version : Nat) : PersistedState :=
  if version < 4 then
    { persistedState with config := some (persistedState.config.getD DEFAULT_CONFIG) }
  else persistedState

/-- The storage wrapper state: the in-window cache of last written values,
the underlying `localStorage` contents, and a count of writes made to the
underlying store. -/
structure PersistStorage where
  cache : List (String × String) := []
  base : List (String × String) := []
  baseWrites : Nat := 0
deriving DecidableEq, Repr

/-- Association-list lookup. -/
def kvGet (l : List (String × String)) (name : String) : Option String :=
  (l.find? (fun kv => kv.fst == name)).map (fun kv => kv.snd)

/-- Association-list update: replace the first binding of `name`, or append
a new one. -/
def kvSet (l : List (String × String)) (name value : String) :
    List (String × String) :=
  match l with
  | [] => [(name, value)]
  | kv :: rest =>
    if kv.fst == name then (name, value) :: rest else kv :: kvSet rest name value

/-- The wrapper's `getItem`: read through to the underlying store. -/
def getItem (s : PersistStorage) (name : String) : Option String := kvGet s.base name

/-- The wrapper's `removeItem`: delete the key from the underlying store. -/
def removeItem (s : PersistStorage) (name : String) : PersistStorage :=
  { s with base := s.base.filter (fun kv => kv.fst != name) }

/-- The wrapper's `setItem`: skip when the cache already holds this exact
value for the key, else record it in the cache and write it through. -/
def setItem (s : PersistStorage) (name value : String) : PersistStorage :=
  if kvGet s.cache name == some value then s
  else
    { cache := kvSet s.cache name value,
      base := kvSet s.base name value,
      baseWrites := s.baseWrites + 1 }

/-! ### The `useCodexEvents` hook -/

/-- The tagged union of event payloads (`msg` of a `CodexEvent`). -/
inductive EventMsg where
  | session_configured (session_id : String)
  | task_started
  | task_complete
  | turn_complete
  | agent_message (last_agent_message : Option String) (message : Option String)
  | agent_message_delta (delta : String)
  | agent_reasoning_delta (delta : String)
  | exec_approval_request (command : String) (cwd : String)
  | patch_approval_request (patch : String) (files : List String)
  | error (message : String)
  | shutdown_complete
  | background_event (message : String)
  | exec_command_begin
  | exec_command_output_delta (stream : String)
  | exec_command_end
deriving DecidableEq, Repr

/-- A `CodexEvent` delivered on the channel. -/
structure CodexEvent where
  id : String
  msg : EventMsg
deriving DecidableEq, Repr

/-- `getEventSessionId`: only a `session_configured` event carries a session
id; for every other event the session cannot be determined. -/
def getEventSessionId (event : CodexEvent) : Option String :=
  match event.msg with
  | .session_configured session_id => some session_id
  | _ => none

/-- A `ChatMessage` of the codex types, as built inside the hook before
conversion to a store message (`type` instead of `role`, a `Date`
timestamp modelled as epoch milliseconds). -/
structure CodexChatMessage where
  id : String
  type : String
  content : String
  timestamp : Nat
  isStreaming : Option Bool := none
deriving DecidableEq, Repr

/-- An approval request forwarded to the `onApprovalRequest` callback. -/
structure ApprovalRequest where
  id : String
  type : String
  command : Option String := none
  cwd : Option String := none
  patch : Option String := none
  files : Option (List String) := none
deriving DecidableEq, Repr

/-- The mutable context of one `useCodexEvents` instance: the store, the
streaming-delta buffer, the pending flush timer (`some delay` while
scheduled), and the approval requests handed to the callback. -/
structure HookState where
  store : ConversationStore
  buffer : String := ""
  flushTimer : Option Nat := none
  approvals : List ApprovalRequest := []
deriving DecidableEq, Repr

/-- `flushBuffer`: with an empty buffer, return at once; otherwise append
the buffered text to the content of the last message of the session's
conversation as the closure-captured `conversations` shows it, write that
through `updateLastMessage`, and clear buffer and timer. -/
def flushBuffer (sessionId : String) (conversations : List Conversation) (now : Nat)
    (st : HookState) : HookState :=
  if st.buffer == "" then st
  else
    let conv := conversations.find? (fun c => c.id == sessionId)
    let msgs := (conv.map Conversation.messages).getD []
    let last := msgs.getLast?
    let newContent := ((last.map ChatMessage.content).getD "") ++ st.buffer
    { st with
      store := updateLastMessage st.store sessionId newContent (some true) now,
      buffer := "",
      flushTimer := none }

/-- `addMessageToStore`: create the conversation when the closure-captured
`conversations` does not show it, then convert the codex message to a store
message and add it. -/
def addMessageToStore (sessionId : String) (conversations : List Conversation)
    (store : ConversationStore) (message : CodexChatMessage) (now : Nat) :
    ConversationStore :=
  let store1 :=
    match conversations.find? (fun conv => conv.id == sessionId) with
    | some _ => store
    | none => (createConversation store (some "New Chat") "agent" (some sessionId) sessionId now).1
  let conversationMessage : ChatMessage :=
    { id := message.id,
      role :=
        if message.type == "user" then "user"
        else if message.type == "agent" then "assistant" else "system",
      content := message.content,
      timestamp := message.timestamp }
  addMessage store1 sessionId conversationMessage now

/-- The tail of the `task_complete` and `turn_complete` cases, after the
buffer flush: clear the loading flag, then mark the last message (as the
closure-captured `conversations` shows it) as not streaming, writing back
that captured content. -/
def handleTerminal (sessionId : String) (conversations : List Conversation) (now : Nat)
    (st : HookState) : HookState :=
  let st1 := { st with store := setSessionLoading st.store sessionId false }
  let conv := conversations.find? (fun c => c.id == sessionId)
  let msgs := (conv.map Conversation.messages).getD []
  match msgs.getLast? with
  | some last =>
    { st1 with store := updateLastMessage st1.store sessionId last.content (some false) now }
  | none => st1

/-- `handleCodexEvent`: the handler switch over the event tag.
`conversations` is the closure-captured conversation list; `now` and
`freshId` stand for `Date.now()` and the generated random id part. -/
def handleCodexEvent (sessionId : String) (conversations : List Conversation)
    (now : Nat) (freshId : String) (st : HookState) (event : CodexEvent) : HookState :=
  match event.msg with
  | .session_configured _ => st
  | .task_started => { st with store := setSessionLoading st.store sessionId true }
  | .task_complete =>
    handleTerminal sessionId conversations now (flushBuffer sessionId conversations now st)
  | .turn_complete =>
    handleTerminal sessionId conversations now (flushBuffer sessionId conversations now st)
  | .agent_message last_agent_message message =>
    let content := last_agent_message.getD (message.getD "")
    if content == "" then st
    else
      let conv0 := conversations.find? (fun c => c.id == sessionId)
      let store1 :=
        match conv0 with
        | some _ => st.store
        | none =>
          (createConversation st.store (some "New Chat") "agent" (some sessionId) sessionId now).1
      let conv :=
        match conv0 with
        | some c => some c
        | none => store1.conversations.find? (fun c => c.id == sessionId)
      let msgs := (conv.map Conversation.messages).getD []
      let lastIsAssistant :=
        match msgs.getLast? with
        | some last => last.role == "assistant"
        | none => false
      if lastIsAssistant then
        { st with store := updateLastMessage store1 sessionId content (some true) now }
      else
        let agentMessage : CodexChatMessage :=
          { id := sessionId ++ "-" ++ freshId, type := "agent", content := content,
            timestamp := now, isStreaming := some true }
        { st with store := addMessageToStore sessionId conversations store1 agentMessage now }
  | .agent_message_delta delta =>
    let conv0 := conversations.find? (fun c => c.id == sessionId)
    let store1 :=
      match conv0 with
      | some _ => st.store
      | none =>
        (createConversation st.store (some "New Chat") "agent" (some sessionId) sessionId now).1
    let conv :=
      match conv0 with
      | some c => some c
      | none => store1.conversations.find? (fun c => c.id == sessionId)
    let msgs := (conv.map Conversation.messages).getD []
    let lastIsAssistant :=
      match msgs.getLast? with
      | some last => last.role == "assistant"
      | none => false
    let store2 :=
      if lastIsAssistant then store1
      else
        addMessageToStore sessionId conversations store1
          { id := sessionId ++ "-" ++ freshId, type := "agent", content := "",
            timestamp := now, isStreaming := some true } now
    { st with
      store := store2,
      buffer := st.buffer ++ delta,
      flushTimer :=
        match st.flushTimer with
        | some t => some t
        | none => some 80 }
  | .agent_reasoning_delta _ => st
  | .exec_approval_request command cwd =>
    { st with
      approvals :=
        st.approvals ++
          [{ id := event.id, type := "exec", command := some command, cwd := some cwd }] }
  | .patch_approval_request patch files =>
    { st with
      approvals :=
        st.approvals ++
          [{ id := event.id, type := "patch", patch := some patch, files := some files }] }
  | .error message =>
    let errorMessage : CodexChatMessage :=
      { id := sessionId ++ "-error-" ++ freshId, type := "system",
        content := "Error: " ++ message, timestamp := now }
    let store1 := addMessageToStore sessionId conversations st.store errorMessage now
    { st with store := setSessionLoading store1 sessionId false }
  | .shutdown_complete => st
  | .background_event _ => st
  | .exec_command_begin => st
  | .exec_command_output_delta _ => st
  | .exec_command_end => st

/-- Remove the first occurrence of `pat` from a character list (the
semantics of the JavaScript `String.replace` with a string pattern and an
empty replacement). -/
def dropFirstOccChars (pat : List Char) : List Char → List Char
  | [] => []
  | c :: cs =>
    if pat.isPrefixOf (c :: cs) then (c :: cs).drop pat.length
    else c :: dropFirstOccChars pat cs

/-- `s.replace(pat, '')` of JavaScript: remove the first occurrence of
`pat` anywhere in `s`. -/
def jsReplaceFirst (s pat : String) : String :=
  ⟨dropFirstOccChars pat.data s.data⟩

/-- Modelled from the spec words of C2 ("after removing the
`codex-event-` prefix"): drop the tag only when it stands at the start of
the string.  This is the spec-side reading, to be compared with
`jsReplaceFirst`, which the source uses. -/
def dropLeadingCodexEventTag (s : String) : String :=
  if "codex-event-".data.isPrefixOf s.data then ⟨s.data.drop "codex-event-".data.length⟩
  else s

/-- The session filter of the channel listener
(`if (eventSessionId && eventSessionId !== ourSessionId) return;`): an
event is dropped when its session id is determined, truthy (nonempty), and
differs from the subscriber's session id with the first `codex-event-`
occurrence removed. -/
def eventFiltered (sessionId : String) (event : CodexEvent) : Bool :=
  match getEventSessionId event with
  | some eventSessionId =>
    eventSessionId != "" && eventSessionId != jsReplaceFirst sessionId "codex-event-"
  | none => false

/-- The channel listener callback: filter by session identity, then route
to the handler switch. -/
def onChannelEvent (sessionId : String) (conversations : List Conversation)
    (now : Nat) (freshId : String) (st : HookState) (event : CodexEvent) : HookState :=
  if eventFiltered sessionId event then st
  else handleCodexEvent sessionId conversations now freshId st event

/-! ### Concrete sample states, used by witnesses and the counterexamples -/

/-- A sample assistant message. -/
def sampleMessage : ChatMessage :=
  { id := "m1", role := "assistant", content := "Hello", timestamp := 0,
    isStreaming := some true }

/-- A sample conversation for session "s" holding `sampleMessage`. -/
def sampleConversation : Conversation :=
  { id := "s", title := "T", messages := [sampleMessage], mode := "agent",
    createdAt := 0, updatedAt := 0, isFavorite := false, isLoading := some true }

/-- A sample store holding `sampleConversation`. -/
def sampleStore : ConversationStore := { conversations := [sampleConversation] }

/-- A sample hook state over `sampleStore` with a pending buffered delta. -/
def sampleHook : HookState :=
  { store := sampleStore, buffer := " world", flushTimer := some 80 }

/-- A sample conversation for session "c" with no messages. -/
def emptyConversation : Conversation :=
  { id := "c", title := "T", messages := [], mode := "agent",
    createdAt := 0, updatedAt := 0, isFavorite := false }

/-- A sample store holding only `emptyConversation`. -/
def emptyConvStore : ConversationStore := { conversations := [emptyConversation] }

/-! ### Helper lemmas -/

lemma updateConversationTitleConv_id (id title : String) (now : Nat) (conv : Conversation) :
    (updateConversationTitleConv id title now conv).id = conv.id := by
  unfold updateConversationTitleConv
  split <;> rfl

lemma updateConversationModeConv_id (id : String) (mode : ChatMode) (now : Nat)
    (conv : Conversation) : (updateConversationModeConv id mode now conv).id = conv.id := by
  unfold updateConversationModeConv
  split <;> rfl

lemma toggleFavoriteConv_id (id : String) (now : Nat) (conv : Conversation) :
    (toggleFavoriteConv id now conv).id = conv.id := by
  unfold toggleFavoriteConv
  split <;> rfl

lemma setSessionLoadingConv_id (sessionId : String) (loading : Bool) (conv : Conversation) :
    (setSessionLoadingConv sessionId loading conv).id = conv.id := by
  unfold setSessionLoadingConv
  split <;> rfl

lemma addDisconnectionWarningConv_id (conversationId : String) (now : Nat)
    (warningMessage : ChatMessage) (conv : Conversation) :
    (addDisconnectionWarningConv conversationId now warningMessage conv).id = conv.id := by
  unfold addDisconnectionWarningConv
  split <;> rfl

lemma addMessageConv_id (conversationId : String) (message : ChatMessage) (now : Nat)
    (conv : Conversation) : (addMessageConv conversationId message now conv).id = conv.id := by
  unfold addMessageConv
  split <;> rfl

lemma updateLastMessageConv_id (conversationId content : String) (o : Option Bool)
    (now : Nat) (conv : Conversation) :
    (updateLastMessageConv conversationId content o now conv).id = conv.id := by
  unfold updateLastMessageConv
  split
  · split <;> rfl
  · rfl

lemma updateLastMessageReasoningConv_id (conversationId reasoning : String) (o : Option Bool)
    (now : Nat) (conv : Conversation) :
    (updateLastMessageReasoningConv conversationId reasoning o now conv).id = conv.id := by
  unfold updateLastMessageReasoningConv
  split
  · split <;> rfl
  · rfl

lemma updateLastMessageToolOutputConv_id (conversationId output : String) (o : Option Bool)
    (now : Nat) (conv : Conversation) :
    (updateLastMessageToolOutputConv conversationId output o now conv).id = conv.id := by
  unfold updateLastMessageToolOutputConv
  split
  · split <;> rfl
  · rfl

/-- Mapping an id-preserving function over a conversation list commutes with
searching by id. -/
lemma find_map_of_id_pres (g : Conversation → Conversation)
    (hg : ∀ c, (g c).id = c.id) (l : List Conversation) (sid : String) :
    (l.map g).find? (fun c => c.id == sid) = (l.find? (fun c => c.id == sid)).map g := by
  induction l with
  | nil => rfl
  | cons head tail ih =>
    rw [List.map_cons]
    cases h : (head.id == sid) with
    | true =>
      have h' : ((g head).id == sid) = true := by rw [hg]; exact h
      simp [List.find?, h, h']
    | false =>
      have h' : ((g head).id == sid) = false := by rw [hg]; exact h
      simp [List.find?, h, h', ih]

/-- Mapping an id-preserving function leaves the id list unchanged. -/
lemma ids_map_of_id_pres (g : Conversation → Conversation)
    (hg : ∀ c, (g c).id = c.id) (l : List Conversation) :
    (l.map g).map Conversation.id = l.map Conversation.id := by
  induction l with
  | nil => rfl
  | cons head tail ih => simp [hg, ih]

/-- A map that fixes every member is the identity. -/
lemma map_eq_self_of_fixed (l : List Conversation) (g : Conversation → Conversation)
    (h : ∀ c ∈ l, g c = c) : l.map g = l := by
  induction l with
  | nil => rfl
  | cons head tail ih =>
    rw [List.map_cons, h head (List.mem_cons_self head tail),
      ih fun c hc => h c (List.mem_cons_of_mem head hc)]

/-- With pairwise distinct ids, any member whose id matches the searched id
is the conversation `find?` returns. -/
lemma eq_find_of_nodup_ids (l : List Conversation) (cid : String) (conv₀ : Conversation)
    (hnd : (l.map Conversation.id).Nodup)
    (hfind : l.find? (fun c => c.id == cid) = some conv₀) :
    ∀ c ∈ l, c.id = cid → c = conv₀ := by
  induction l with
  | nil => intro c hc; cases hc
  | cons head tail ih =>
    rw [List.map_cons, List.nodup_cons] at hnd
    intro c hc hcid
    cases hh : (head.id == cid) with
    | true =>
      simp only [List.find?, hh, Option.some.injEq] at hfind
      rcases List.mem_cons.mp hc with rfl | hmem
      · exact hfind
      · exfalso
        have hhid : head.id = cid := by simpa using hh
        exact hnd.1 (by rw [hhid, ← hcid]; exact List.mem_map_of_mem Conversation.id hmem)
    | false =>
      have hh' : head.id ≠ cid := by simpa using hh
      rcases List.mem_cons.mp hc with rfl | hmem
      · exact absurd hcid hh'
      · simp only [List.find?, hh] at hfind
        exact ih hnd.2 hfind c hmem hcid

/-- `kvSet` stores the value `kvGet` then finds. -/
lemma kvGet_kvSet (l : List (String × String)) (name value : String) :
    kvGet (kvSet l name value) name = some value := by
  induction l with
  | nil => simp [kvSet, kvGet]
  | cons kv rest ih =>
    cases h : (kv.fst == name) with
    | true => simp [kvSet, h, kvGet]
    | false =>
      simp only [kvSet, h, Bool.false_eq_true, if_false, kvGet, List.find?]
      exact ih

/-- `setItem` skips when the cache holds this exact value. -/
lemma setItem_of_cached (s : PersistStorage) (name value : String)
    (h : kvGet s.cache name = some value) : setItem s name value = s := by
  simp [setItem, h]

/-- After any `setItem`, the cache holds the value just set. -/
lemma setItem_cache_get (s : PersistStorage) (name value : String) :
    kvGet (setItem s name value).cache name = some value := by
  by_cases h : kvGet s.cache name = some value
  · simp [setItem, h]
  · have hb : (kvGet s.cache name == some value) = false := by simpa using h
    simp [setItem, hb, kvGet_kvSet]

/-! ### C1: the partial-write policy -/

/-- C1: whenever `streamingActive` is true, `partialize` keeps only the
config and the current conversation id and persists no conversation list;
whenever it is false, it also keeps the conversation list, which is the
snapshot when one exists and the live list otherwise. -/
theorem partialize_policy (st : ConversationStore) :
    (st.streamingActive = true →
      partialize st =
        { config := some st.config, conversations := none,
          currentConversationId := st.currentConversationId })
    ∧ (st.streamingActive = false → ∀ snap, st.conversationsSnapshot = some snap →
      partialize st =
        { config := some st.config, conversations := some snap,
          currentConversationId := st.currentConversationId })
    ∧ (st.streamingActive = false → st.conversationsSnapshot = none →
      partialize st =
        { config := some st.config, conversations := some st.conversations,
          currentConversationId := st.currentConversationId }) :=
  ⟨fun h => by simp [partialize, h],
   fun h snap hs => by simp [partialize, h, hs],
   fun h hs => by simp [partialize, h, hs]⟩

/-- Witness for `partialize_policy` at concrete stores. -/
theorem partialize_policy_witness :
    partialize { streamingActive := true } =
      { config := some {}, conversations := none, currentConversationId := none }
    ∧ partialize { conversationsSnapshot := some [] } =
      { config := some {}, conversations := some [], currentConversationId := none }
    ∧ partialize {} =
      { config := some {}, conversations := some [], currentConversationId := none } :=
  ⟨(partialize_policy _).1 rfl,
   (partialize_policy _).2.1 rfl [] rfl,
   (partialize_policy _).2.2 rfl rfl⟩

/-! ### C4: skip-if-unchanged writes -/

/-- C4: `setItem` with the value most recently set for the key (the cached
value) performs no write to the underlying store; two consecutive identical
`setItem` calls write at most once; a differing value is written through,
and the cache always records the value just set. -/
theorem setItem_skip_if_unchanged (s : PersistStorage) (name value : String) :
    (kvGet s.cache name = some value → setItem s name value = s)
    ∧ (kvGet s.cache name ≠ some value →
        (setItem s name value).base = kvSet s.base name value
        ∧ (setItem s name value).baseWrites = s.baseWrites + 1)
    ∧ kvGet (setItem s name value).cache name = some value
    ∧ setItem (setItem s name value) name value = setItem s name value := by
  refine ⟨setItem_of_cached s name value, fun h => ?_, setItem_cache_get s name value, ?_⟩
  · have hb : (kvGet s.cache name == some value) = false := by simpa using h
    constructor <;> simp [setItem, hb]
  · exact setItem_of_cached _ name value (setItem_cache_get s name value)

/-- Witness for `setItem_skip_if_unchanged` at a concrete storage state. -/
theorem setItem_skip_if_unchanged_witness :
    setItem { cache := [("k", "v")], base := [("k", "v")], baseWrites := 1 } "k" "v" =
      { cache := [("k", "v")], base := [("k", "v")], baseWrites := 1 }
    ∧ (setItem { baseWrites := 0 } "k" "v").base = [("k", "v")]
    ∧ (setItem { baseWrites := 0 } "k" "v").baseWrites = 1 :=
  ⟨(setItem_skip_if_unchanged _ "k" "v").1 rfl,
   ((setItem_skip_if_unchanged { baseWrites := 0 } "k" "v").2.1 (by decide)).1,
   ((setItem_skip_if_unchanged { baseWrites := 0 } "k" "v").2.1 (by decide)).2⟩

/-! ### C5: the version-gated migration -/

/-- C5: below version 4, `migrate` fills in a missing config with
`DEFAULT_CONFIG`, keeps a present config, and changes no other field; from
version 4 on it returns the state unchanged. -/
theorem migrate_version_gate (ps : PersistedState) (version : Nat) :
    (version < 4 → ps.config = none →
      migrate ps version = { ps with config := some DEFAULT_CONFIG })
    ∧ (version < 4 → ∀ c, ps.config = some c → migrate ps version = ps)
    ∧ (4 ≤ version → migrate ps version = ps) := by
  refine ⟨fun h hc => by simp [migrate, h, hc], fun h c hc => ?_, fun h => ?_⟩
  · obtain ⟨cfg, convs, cur⟩ := ps
    have hc' : cfg = some c := hc
    subst hc'
    simp [migrate, h]
  · have h' : ¬version < 4 := by omega
    simp [migrate, h']

/-- Witness for `migrate_version_gate` at concrete persisted states. -/
theorem migrate_version_gate_witness :
    migrate { conversations := some [] } 3 =
      { config := some DEFAULT_CONFIG, conversations := some [] }
    ∧ migrate { config := some { blob := 7 } } 3 = { config := some { blob := 7 } }
    ∧ migrate { config := some { blob := 7 } } 4 = { config := some { blob := 7 } } :=
  ⟨(migrate_version_gate _ 3).1 (by omega) rfl,
   (migrate_version_gate _ 3).2.1 (by omega) { blob := 7 } rfl,
   (migrate_version_gate _ 4).2.2 (by omega)⟩

/-! ### C6: the snapshot is insulated from later mutations -/

/-- C6: right after `snapshotConversations` the snapshot equals the live
conversation list, and each of the listed mutations of the live list leaves
`conversationsSnapshot` unchanged. -/
theorem snapshot_frame (st st' : ConversationStore) (cid title content r o : String)
    (m : ChatMessage) (opt : Option Bool) (now : Nat) :
    (snapshotConversations st).conversationsSnapshot = some st.conversations
    ∧ (addMessage st' cid m now).conversationsSnapshot = st'.conversationsSnapshot
    ∧ (updateLastMessage st' cid content opt now).conversationsSnapshot
        = st'.conversationsSnapshot
    ∧ (updateLastMessageReasoning st' cid r opt now).conversationsSnapshot
        = st'.conversationsSnapshot
    ∧ (updateLastMessageToolOutput st' cid o opt now).conversationsSnapshot
        = st'.conversationsSnapshot
    ∧ (updateConversationTitle st' cid title now).conversationsSnapshot
        = st'.conversationsSnapshot
    ∧ (toggleFavorite st' cid now).conversationsSnapshot = st'.conversationsSnapshot
    ∧ (deleteConversation st' cid).conversationsSnapshot = st'.conversationsSnapshot :=
  ⟨rfl, rfl, rfl, rfl, rfl, rfl, rfl, rfl⟩

/-! ### C10: deleting a conversation -/

/-- C10: after `deleteConversation id` no conversation with that id remains
and the others are kept in order; the current conversation id moves to the
first remaining conversation (or `none`) only when the deleted one was
current. -/
theorem deleteConversation_spec (st : ConversationStore) (id : String) :
    (deleteConversation st id).conversations
        = st.conversations.filter (fun conv => conv.id != id)
    ∧ (∀ conv ∈ (deleteConversation st id).conversations, conv.id ≠ id)
    ∧ (st.currentConversationId = some id →
      (deleteConversation st id).currentConversationId =
        ((st.conversations.filter (fun conv => conv.id != id)).head?).map Conversation.id)
    ∧ (st.currentConversationId ≠ some id →
      (deleteConversation st id).currentConversationId = st.currentConversationId) := by
  refine ⟨rfl, ?_, ?_, ?_⟩
  · intro conv hmem
    have hp := List.of_mem_filter hmem
    simpa using hp
  · intro h
    have hb : (st.currentConversationId == some id) = true := by simpa using h
    unfold deleteConversation
    simp only [hb, if_true]
    cases (st.conversations.filter (fun conv => conv.id != id)).head? <;> rfl
  · intro h
    have hb : (st.currentConversationId == some id) = false := by simpa using h
    simp [deleteConversation, hb]

/-! ### C2: session filtering (corrected) -/

/-- C2 counterexample: the subscriber session id "x-codex-event-y" carries
no leading "codex-event-", so removing the prefix leaves it unchanged and
the claim predicts that a session_configured event carrying "x-y" is not
passed to the handler switch; but the code removes the first occurrence of
"codex-event-" anywhere, turning the subscriber id into "x-y", so it does
invoke the handler switch for that event. -/
theorem session_filter_counterexample :
    getEventSessionId { id := "e1", msg := .session_configured "x-y" } = some "x-y"
    ∧ "x-y" ≠ dropLeadingCodexEventTag "x-codex-event-y"
    ∧ jsReplaceFirst "x-codex-event-y" "codex-event-" = "x-y"
    ∧ eventFiltered "x-codex-event-y" { id := "e1", msg := .session_configured "x-y" } = false
    ∧ onChannelEvent "x-codex-event-y" [] 0 "f" { store := {} }
        { id := "e1", msg := .session_configured "x-y" }
      = handleCodexEvent "x-codex-event-y" [] 0 "f" { store := {} }
        { id := "e1", msg := .session_configured "x-y" } :=
  ⟨rfl, by decide, rfl, rfl, rfl⟩

/-- C2 (amended): for every event whose session identifier is determined,
nonempty (the source guard tests its truthiness), and differs from the
subscriber's session id after removing the first occurrence of
"codex-event-" (not only a leading prefix), the handler switch is not
invoked and the hook state is unchanged; every event whose determined
session identifier is the empty string, and every event whose session
identifier cannot be determined, is passed to the handler switch. -/
theorem session_filter_amended (sessionId : String) (conversations : List Conversation)
    (now : Nat) (freshId : String) (st : HookState) (event : CodexEvent) :
    (∀ sid, getEventSessionId event = some sid → sid ≠ "" →
      sid ≠ jsReplaceFirst sessionId "codex-event-" →
      eventFiltered sessionId event = true
      ∧ onChannelEvent sessionId conversations now freshId st event = st)
    ∧ (getEventSessionId event = some "" →
      eventFiltered sessionId event = false
      ∧ onChannelEvent sessionId conversations now freshId st event
          = handleCodexEvent sessionId conversations now freshId st event)
    ∧ (getEventSessionId event = none →
      eventFiltered sessionId event = false
      ∧ onChannelEvent sessionId conversations now freshId st event
          = handleCodexEvent sessionId conversations now freshId st event) := by
  refine ⟨?_, ?_, ?_⟩
  · intro sid hsid hne₀ hne
    have hf : eventFiltered sessionId event = true := by
      simp [eventFiltered, hsid, hne₀, hne]
    exact ⟨hf, by simp [onChannelEvent, hf]⟩
  · intro hempty
    have hf : eventFiltered sessionId event = false := by
      simp [eventFiltered, hempty]
    exact ⟨hf, by simp [onChannelEvent, hf]⟩
  · intro hnone
    have hf : eventFiltered sessionId event = false := by
      simp [eventFiltered, hnone]
    exact ⟨hf, by simp [onChannelEvent, hf]⟩

/-- Witness for `session_filter_amended` at concrete events: a differing
nonempty session id is filtered, an empty session id and an undetermined
one are passed to the handler switch. -/
theorem session_filter_amended_witness :
    (eventFiltered "codex-event-abc" { id := "e", msg := .session_configured "zzz" } = true
     ∧ onChannelEvent "codex-event-abc" [] 0 "f" { store := {} }
         { id := "e", msg := .session_configured "zzz" } = { store := {} })
    ∧ (eventFiltered "codex-event-abc" { id := "e", msg := .session_configured "" } = false
       ∧ onChannelEvent "codex-event-abc" [] 0 "f" { store := {} }
           { id := "e", msg := .session_configured "" }
         = handleCodexEvent "codex-event-abc" [] 0 "f" { store := {} }
           { id := "e", msg := .session_configured "" })
    ∧ (eventFiltered "codex-event-abc" { id := "e", msg := .task_started } = false
       ∧ onChannelEvent "codex-event-abc" [] 0 "f" { store := {} }
           { id := "e", msg := .task_started }
         = handleCodexEvent "codex-event-abc" [] 0 "f" { store := {} }
           { id := "e", msg := .task_started }) :=
  ⟨(session_filter_amended "codex-event-abc" [] 0 "f" { store := {} }
      { id := "e", msg := .session_configured "zzz" }).1 "zzz" rfl (by decide) (by decide),
   (session_filter_amended "codex-event-abc" [] 0 "f" { store := {} }
      { id := "e", msg := .session_configured "" }).2.1 rfl,
   (session_filter_amended "codex-event-abc" [] 0 "f" { store := {} }
      { id := "e", msg := .task_started }).2.2 rfl⟩

/-! ### C9: updates of the last message of a missing or empty conversation -/

/-- A map over the conversation list is the identity when the searched id
either finds nothing or finds (with pairwise distinct ids) a conversation
with no messages, provided the per-conversation function fixes
conversations with another id and conversations without messages. -/
lemma conversations_map_noop (l : List Conversation) (cid : String)
    (g : Conversation → Conversation)
    (hg1 : ∀ c, (c.id == cid) = false → g c = c)
    (hg2 : ∀ c, c.messages = [] → g c = c)
    (h : l.find? (fun c => c.id == cid) = none
      ∨ ((l.map Conversation.id).Nodup
         ∧ ∃ conv, l.find? (fun c => c.id == cid) = some conv ∧ conv.messages = [])) :
    l.map g = l := by
  apply map_eq_self_of_fixed
  intro c hc
  rcases h with hnone | ⟨hnd, conv, hfind, hempty⟩
  · have hne := List.find?_eq_none.mp hnone c hc
    exact hg1 c (by simpa using hne)
  · cases hcc : (c.id == cid) with
    | false => exact hg1 c hcc
    | true =>
      have hceq : c = conv :=
        eq_find_of_nodup_ids l cid conv hnd hfind c hc (by simpa using hcc)
      exact hg2 c (by rw [hceq]; exact hempty)

/-- C9: when the conversation id names no conversation, or names (under
distinct ids) a conversation with an empty message list, the three
last-message updates leave the whole store unchanged. -/
theorem updateLast_noop (st : ConversationStore) (cid content reasoning output : String)
    (opt : Option Bool) (now : Nat)
    (h : st.conversations.find? (fun c => c.id == cid) = none
      ∨ ((st.conversations.map Conversation.id).Nodup
         ∧ ∃ conv, st.conversations.find? (fun c => c.id == cid) = some conv
            ∧ conv.messages = [])) :
    updateLastMessage st cid content opt now = st
    ∧ updateLastMessageReasoning st cid reasoning opt now = st
    ∧ updateLastMessageToolOutput st cid output opt now = st := by
  refine ⟨?_, ?_, ?_⟩
  · unfold updateLastMessage
    rw [conversations_map_noop st.conversations cid _
      (fun c hcc => by simp [updateLastMessageConv, hcc])
      (fun c hcc => by unfold updateLastMessageConv; split <;> simp [hcc]) h]
  · unfold updateLastMessageReasoning
    rw [conversations_map_noop st.conversations cid _
      (fun c hcc => by simp [updateLastMessageReasoningConv, hcc])
      (fun c hcc => by unfold updateLastMessageReasoningConv; split <;> simp [hcc]) h]
  · unfold updateLastMessageToolOutput
    rw [conversations_map_noop st.conversations cid _
      (fun c hcc => by simp [updateLastMessageToolOutputConv, hcc])
      (fun c hcc => by unfold updateLastMessageToolOutputConv; split <;> simp [hcc]) h]

/-- Witness for `updateLast_noop`: once at a store without the conversation
and once at a store whose named conversation has no messages. -/
theorem updateLast_noop_witness :
    (updateLastMessage {} "c" "x" none 0 = {}
     ∧ updateLastMessageReasoning {} "c" "r" none 0 = {}
     ∧ updateLastMessageToolOutput {} "c" "o" none 0 = {})
    ∧ (updateLastMessage emptyConvStore "c" "x" none 0 = emptyConvStore
       ∧ updateLastMessageReasoning emptyConvStore "c" "r" none 0 = emptyConvStore
       ∧ updateLastMessageToolOutput emptyConvStore "c" "o" none 0 = emptyConvStore) :=
  ⟨updateLast_noop {} "c" "x" "r" "o" none 0 (Or.inl rfl),
   updateLast_noop emptyConvStore "c" "x" "r" "o" none 0
     (Or.inr ⟨by decide, emptyConversation, rfl, rfl⟩)⟩

/-! ### C8: uniqueness of conversation ids -/

/-- C8: every store operation preserves pairwise-distinct conversation
ids, and `createConversation` with a session id that already names a
conversation only selects it as current and returns that id. -/
theorem conversation_ids_unique (st : ConversationStore)
    (h : (st.conversations.map Conversation.id).Nodup)
    (title : Option String) (mode : ChatMode) (sid freshId cid content : String)
    (message : ChatMessage) (conv : Conversation) (opt : Option Bool) (b : Bool)
    (now : Nat) :
    (((createConversation st title mode (some sid) freshId now).1.conversations.map
        Conversation.id).Nodup)
    ∧ (((createConversation st title mode none freshId now).1.conversations.map
        Conversation.id).Nodup)
    ∧ (((deleteConversation st cid).conversations.map Conversation.id).Nodup)
    ∧ (((updateConversationTitle st cid content now).conversations.map
        Conversation.id).Nodup)
    ∧ (((updateConversationMode st cid mode now).conversations.map Conversation.id).Nodup)
    ∧ (((toggleFavorite st cid now).conversations.map Conversation.id).Nodup)
    ∧ (((setSessionLoading st cid b).conversations.map Conversation.id).Nodup)
    ∧ (((addDisconnectionWarning st cid now).conversations.map Conversation.id).Nodup)
    ∧ (((addMessage st cid message now).conversations.map Conversation.id).Nodup)
    ∧ (((updateLastMessage st cid content opt now).conversations.map
        Conversation.id).Nodup)
    ∧ (((updateLastMessageReasoning st cid content opt now).conversations.map
        Conversation.id).Nodup)
    ∧ (((updateLastMessageToolOutput st cid content opt now).conversations.map
        Conversation.id).Nodup)
    ∧ (((snapshotConversations st).conversations.map Conversation.id).Nodup)
    ∧ (((setCurrentConversation st cid).conversations.map Conversation.id).Nodup)
    ∧ (((selectHistoryConversation st conv).conversations.map Conversation.id).Nodup)
    ∧ (st.conversations.find? (fun c => c.id == sid) = some conv →
        createConversation st title mode (some sid) freshId now
          = ({ st with currentConversationId := some sid }, sid)) := by
  have hmap : ∀ g : Conversation → Conversation, (∀ c, (g c).id = c.id) →
      ((st.conversations.map g).map Conversation.id).Nodup := fun g hg => by
    rw [ids_map_of_id_pres g hg]
    exact h
  have hcreate : ∀ sessionId : Option String,
      (((createConversation st title mode sessionId freshId now).1.conversations.map
        Conversation.id).Nodup) := by
    intro sessionId
    simp only [createConversation]
    cases hfind : st.conversations.find? (fun conv => conv.id == sessionId.getD freshId) with
    | some c => exact h
    | none =>
      refine List.nodup_cons.mpr ⟨fun hmem => ?_, h⟩
      obtain ⟨c, hcmem, hcid⟩ := List.mem_map.mp hmem
      exact List.find?_eq_none.mp hfind c hcmem (by simp [hcid])
  refine ⟨hcreate (some sid), hcreate none,
    List.Nodup.sublist ((List.filter_sublist _).map _) h,
    hmap _ (updateConversationTitleConv_id cid content now),
    hmap _ (updateConversationModeConv_id cid mode now),
    hmap _ (toggleFavoriteConv_id cid now),
    hmap _ (setSessionLoadingConv_id cid b),
    hmap _ (addDisconnectionWarningConv_id cid now _),
    hmap _ (addMessageConv_id cid message now),
    hmap _ (updateLastMessageConv_id cid content opt now),
    hmap _ (updateLastMessageReasoningConv_id cid content opt now),
    hmap _ (updateLastMessageToolOutputConv_id cid content opt now),
    h, h, h, ?_⟩
  intro hfind
  simp only [createConversation, Option.getD_some]
  rw [hfind]

/-- Witness for `conversation_ids_unique` at a concrete store. -/
theorem conversation_ids_unique_witness :
    (((createConversation emptyConvStore (some "T") "agent" none "b" 3).1.conversations.map
        Conversation.id).Nodup)
    ∧ createConversation emptyConvStore (some "T") "agent" (some "c") "b" 3
        = ({ emptyConvStore with currentConversationId := some "c" }, "c") :=
  ⟨(conversation_ids_unique emptyConvStore (by decide) (some "T") "agent" "c" "b" "z" "x"
      sampleMessage emptyConversation none false 3).2.1,
   (conversation_ids_unique emptyConvStore (by decide) (some "T") "agent" "c" "b" "z" "x"
      sampleMessage emptyConversation none false 3).2.2.2.2.2.2.2.2.2.2.2.2.2.2.2
     (by decide)⟩

/-! ### C3: the streaming buffer -/

/-- C3: an agent_message_delta appends its fragment to the buffer and, when
no flush is pending, schedules one with the fixed 80 ms delay; the
task_complete and turn_complete handlers run the flush first; a flush of a
nonempty buffer appends the whole buffered text to the content of the last
message of the session's conversation and empties the buffer; a flush with
an empty buffer changes nothing. -/
theorem streaming_buffer_spec (sessionId : String) (conversations : List Conversation)
    (now : Nat) (freshId eventId : String) (st : HookState) (delta : String) :
    ((handleCodexEvent sessionId conversations now freshId st
        { id := eventId, msg := .agent_message_delta delta }).buffer = st.buffer ++ delta)
    ∧ (st.flushTimer = none →
      (handleCodexEvent sessionId conversations now freshId st
          { id := eventId, msg := .agent_message_delta delta }).flushTimer = some 80)
    ∧ (handleCodexEvent sessionId conversations now freshId st
          { id := eventId, msg := .task_complete }
        = handleTerminal sessionId conversations now
            (flushBuffer sessionId conversations now st))
    ∧ (handleCodexEvent sessionId conversations now freshId st
          { id := eventId, msg := .turn_complete }
        = handleTerminal sessionId conversations now
            (flushBuffer sessionId conversations now st))
    ∧ (st.buffer = "" → flushBuffer sessionId conversations now st = st)
    ∧ (∀ conv lastMessage, st.buffer ≠ "" → conversations = st.store.conversations →
      st.store.conversations.find? (fun c => c.id == sessionId) = some conv →
      conv.messages.getLast? = some lastMessage →
      (flushBuffer sessionId conversations now st).buffer = ""
      ∧ (flushBuffer sessionId conversations now st).flushTimer = none
      ∧ (flushBuffer sessionId conversations now st).store.conversations.find?
            (fun c => c.id == sessionId)
        = some { conv with
            messages := conv.messages.dropLast ++
              [{ lastMessage with
                 content := lastMessage.content ++ st.buffer,
                 isStreaming := some true }] }) := by
  refine ⟨rfl, fun h => by simp [handleCodexEvent, h], rfl, rfl,
    fun h => by simp [flushBuffer, h], ?_⟩
  intro conv lastMessage hne hconvs hfind hlast
  subst hconvs
  have hbuf : (st.buffer == "") = false := by simpa using hne
  have hpred : (conv.id == sessionId) = true := by
    have hp := List.find?_some hfind
    simpa using hp
  refine ⟨by simp [flushBuffer, hbuf], by simp [flushBuffer, hbuf], ?_⟩
  simp only [flushBuffer, hbuf, Bool.false_eq_true, if_false, hfind, Option.map_some',
    Option.getD_some, hlast]
  unfold updateLastMessage
  rw [find_map_of_id_pres _
    (updateLastMessageConv_id sessionId (lastMessage.content ++ st.buffer) (some true) now),
    hfind]
  simp only [Option.map_some', updateLastMessageConv, hpred, if_true, hlast]
  rfl

/-- Witness for `streaming_buffer_spec` at the sample states. -/
theorem streaming_buffer_spec_witness :
    (handleCodexEvent "s" sampleStore.conversations 9 "f" sampleHook
        { id := "e", msg := .agent_message_delta "xy" }).buffer = sampleHook.buffer ++ "xy"
    ∧ (handleCodexEvent "s" sampleStore.conversations 9 "f" { store := sampleStore }
        { id := "e", msg := .agent_message_delta "xy" }).flushTimer = some 80
    ∧ flushBuffer "s" sampleStore.conversations 9 { store := sampleStore }
        = { store := sampleStore }
    ∧ (flushBuffer "s" sampleStore.conversations 9 sampleHook).buffer = ""
    ∧ (flushBuffer "s" sampleStore.conversations 9 sampleHook).store.conversations.find?
        (fun c => c.id == "s")
      = some { sampleConversation with
          messages := sampleConversation.messages.dropLast ++
            [{ sampleMessage with
               content := sampleMessage.content ++ sampleHook.buffer,
               isStreaming := some true }] } :=
  ⟨(streaming_buffer_spec "s" sampleStore.conversations 9 "f" "e" sampleHook "xy").1,
   (streaming_buffer_spec "s" sampleStore.conversations 9 "f" "e"
      { store := sampleStore } "xy").2.1 rfl,
   (streaming_buffer_spec "s" sampleStore.conversations 9 "f" "e"
      { store := sampleStore } "xy").2.2.2.2.1 rfl,
   ((streaming_buffer_spec "s" sampleStore.conversations 9 "f" "e" sampleHook "xy").2.2.2.2.2
      sampleConversation sampleMessage (by decide) rfl rfl rfl).1,
   ((streaming_buffer_spec "s" sampleStore.conversations 9 "f" "e" sampleHook "xy").2.2.2.2.2
      sampleConversation sampleMessage (by decide) rfl rfl rfl).2.2⟩

/-! ### C7: terminal events and the streaming flag (code bug) -/

/-- C7, evaluated at the failing input.  With the pending buffer " world"
and a last message whose content is "Hello", the flush inside the
task_complete handler writes "Hello world" into the store; the handler then
rewrites the last message from the stale closure-captured conversation
list, reverting the content to "Hello" and discarding the flushed text,
while clearing the streaming and loading flags as the claim states. -/
theorem terminal_event_reverts_flushed_content :
    (flushBuffer "s" sampleStore.conversations 9 sampleHook).store.conversations.map
        (fun c => c.messages.map ChatMessage.content) = [["Hello world"]]
    ∧ (handleCodexEvent "s" sampleStore.conversations 9 "f" sampleHook
        { id := "e", msg := .task_complete }).store.conversations.map
        (fun c => c.messages.map ChatMessage.content) = [["Hello"]]
    ∧ (handleCodexEvent "s" sampleStore.conversations 9 "f" sampleHook
        { id := "e", msg := .task_complete }).store.conversations.map
        (fun c => c.messages.map ChatMessage.isStreaming) = [[some false]]
    ∧ (handleCodexEvent "s" sampleStore.conversations 9 "f" sampleHook
        { id := "e", msg := .task_complete }).store.conversations.map Conversation.isLoading
        = [some false]
    ∧ (handleCodexEvent "s" sampleStore.conversations 9 "f" sampleHook
        { id := "e", msg := .task_complete }).buffer = ""
    ∧ (handleCodexEvent "s" sampleStore.conversations 9 "f" sampleHook
        { id := "e", msg := .turn_complete }).store.conversations.map
        (fun c => c.messages.map ChatMessage.content) = [["Hello"]] :=
  ⟨rfl, rfl, rfl, rfl, rfl, rfl⟩

/-- Witness for `deleteConversation_spec` at a concrete store. -/
theorem deleteConversation_spec_witness :
    (∀ conv ∈ (deleteConversation { currentConversationId := some "a" } "a").conversations,
      conv.id ≠ "a")
    ∧ (deleteConversation { currentConversationId := some "a" } "a").currentConversationId
        = none
    ∧ (deleteConversation { currentConversationId := some "b" } "a").currentConversationId
        = some "b" :=
  ⟨(deleteConversation_spec { currentConversationId := some "a" } "a").2.1,
   (deleteConversation_spec { currentConversationId := some "a" } "a").2.2.1 rfl,
   (deleteConversation_spec { currentConversationId := some "b" } "a").2.2.2 (by decide)⟩

end Codexia
